import Mathlib

/-!
A shallow embedding of the web100-userland core (src/util/gui/web100.c and
src/util/gui/connection_info.c) together with theorems settling the frozen
claims about its natural-language specification.

Conventions of the embedding:
* machine integers are modelled as `Nat` / `Int`, with `% 2 ^ w` written out
  where the C arithmetic wraps;
* byte buffers are `List Nat` (each element a byte value), decoded
  little-endian where the C reads them through `memcpy` into host integers;
* fallible C functions returning an error code and setting `web100_errno`
  are modelled as `Except Nat _` or as a pair carrying the errno value;
* pointer identity of agents is modelled by an `id` field carried in
  `AgentRef`; the C compares agent pointers, the model compares refs;
* linked lists built by prepending in C become `List`s; where a claim is
  order-insensitive the model may present records in emission order.

The file is laid out as: all definitions first, then the theorems.
-/

namespace Web100

/-- Wire types of instrumentation variables (WEB100_TYPE in web100.h,
as consumed by web100.c). -/
inductive WEB100_TYPE where
  | INTEGER
  | INTEGER32
  | IP_ADDRESS
  | COUNTER32
  | GAUGE32
  | UNSIGNED32
  | TIME_TICKS
  | COUNTER64
  | UNSIGNED16
deriving DecidableEq, Repr

/-- `size_from_type` from web100.c: the byte size of an object of the given
wire type. -/
def size_from_type : WEB100_TYPE → Nat
  | .INTEGER => 4
  | .INTEGER32 => 4
  | .IP_ADDRESS => 4
  | .COUNTER32 => 4
  | .GAUGE32 => 4
  | .UNSIGNED32 => 4
  | .TIME_TICKS => 4
  | .COUNTER64 => 8
  | .UNSIGNED16 => 2

/-! Error codes, in the order fixed by `web100_sys_errlist` in web100.c
(the numeric values come from web100.h, which the errlist comments mirror). -/

def WEB100_ERR_SUCCESS : Nat := 0
def WEB100_ERR_SYS : Nat := 1
def WEB100_ERR_AGENT_TYPE : Nat := 2
def WEB100_ERR_NOMEM : Nat := 3
def WEB100_ERR_NOCONNECTION : Nat := 4
def WEB100_ERR_INVAL : Nat := 5
def WEB100_ERR_HEADER : Nat := 6
def WEB100_ERR_NOVAR : Nat := 7

/-- The supported agent kind (`WEB100_AGENT_TYPE_LOCAL` from web100.h):
the only kind web100.c ever constructs or accepts. -/
def WEB100_AGENT_TYPE_LOCAL : Nat := 1

/-- Modelled from the spec: the fixed well-known header path
(`WEB100_HEADER_FILE` lives in web100-int.h, which is not part of the
sources given). Only its identity as a fixed string matters here. -/
def WEB100_HEADER_FILE : String := "/proc/web100/header"

/-- `web100_sys_errlist` from web100.c: error code to message table. -/
def web100_sys_errlist : List String :=
  ["success",
   "system error",
   "unsupported agent type",
   "no memory",
   "unable to open connection stats",
   "invalid arguments",
   "could not parse " ++ WEB100_HEADER_FILE,
   "variable not found"]

/-- `web100_sys_nerr` from web100.c: number of defined errors. -/
def web100_sys_nerr : Int := (web100_sys_errlist.length : Int)

/-- `web100_strerror` from web100.c: message for an error number, with
"unknown error" for any number outside `[0, web100_sys_nerr)`. -/
def web100_strerror (errnum : Int) : String :=
  if errnum < 0 ∨ errnum ≥ web100_sys_nerr then "unknown error"
  else web100_sys_errlist.getD errnum.toNat "unknown error"

/-! ## Schema store (`_web100_agent_attach_local`, group and var lookup) -/

/-- Identity of a `web100_agent` as seen through a pointer to it: web100.c
compares agent pointers (`var->group->agent != conn->agent`) and reads
`agent->type` through them. -/
structure AgentRef where
  id : Nat
  type : Nat
deriving DecidableEq, Repr

/-- Identity of a `web100_group` as seen through a pointer: its owning
agent and its name (web100.c dereferences `var->group->agent` and
`var->group->name`, and compares group pointers). -/
structure GroupRef where
  agent : AgentRef
  name : String
deriving DecidableEq, Repr

/-- `struct web100_var` from web100-int.h as used by web100.c: name, byte
offset within its group's record, wire type, and the back pointer to its
group. -/
structure web100_var where
  group : GroupRef
  name : String
  offset : Nat
  type : WEB100_TYPE
deriving DecidableEq, Repr

/-- `struct web100_group` from web100-int.h as used by web100.c: owning
agent, name, accumulated byte size, variable count, and the variable list
(`var_head`, built by prepending). -/
structure web100_group where
  agent : AgentRef
  name : String
  size : Nat
  nvars : Nat
  vars : List web100_var
deriving DecidableEq, Repr

/-- `struct web100_agent` (local kind) as used by web100.c: agent kind,
version string, and the exposed group list (`group_head`). The `id` field
models the pointer identity of the allocation. -/
structure web100_agent where
  id : Nat
  type : Nat
  version : String
  groups : List web100_group
deriving DecidableEq, Repr

/-- One whitespace-delimited record of the header file, as tokenised by the
`fscanf` calls of `_web100_agent_attach_local`: a `/`-introduced group name,
or a variable record `name offset type`. -/
inductive HeaderTok where
  | group (name : String)
  | var (name : String) (offset : Nat) (type : WEB100_TYPE)
deriving DecidableEq, Repr

/-- The reference an agent under construction presents to its groups. -/
def agentRef (aid : Nat) : AgentRef :=
  ⟨aid, WEB100_AGENT_TYPE_LOCAL⟩

/-- A freshly allocated group in `_web100_agent_attach_local` right after
its name is read: `gp->size = 0; gp->nvars = 0;` with an empty var list. -/
def freshGroup (aid : Nat) (name : String) : web100_group :=
  ⟨agentRef aid, name, 0, 0, []⟩

/-- Adding one parsed variable record to the current group, mirroring
`gp->size += size_from_type(vp->type); gp->nvars++;` and the prepend onto
`gp->info.local.var_head`. -/
def addVar (g : web100_group) (n : String) (off : Nat) (ty : WEB100_TYPE) :
    web100_group :=
  { g with
    size := g.size + size_from_type ty
    nvars := g.nvars + 1
    vars := ⟨⟨g.agent, g.name⟩, n, off, ty⟩ :: g.vars }

/-- Finishing the current group when a new group token (or end of input)
arrives: a group whose `discard` flag is set (name "spec") is dropped
(`free(gp)`), otherwise it is already linked into the agent's group list.
The C links a group on creation and mutates it in place; linking the
finished value at flush time is observationally the same and keeps the
same list order. -/
def flushGroup : Option (web100_group × Bool) → List web100_group →
    List web100_group
  | none, acc => acc
  | some (g, discard), acc => if discard then acc else g :: acc

/-- The parse loop of `_web100_agent_attach_local` (web100.c lines
127-191) over the token stream: `cur` is the group currently being filled
together with its `discard` flag, `acc` the group list built so far
(prepend order, as in the C). A variable record before any group token is
a `WEB100_ERR_HEADER` failure. -/
def attachLoop (aid : Nat) :
    List HeaderTok → Option (web100_group × Bool) → List web100_group →
    Except Nat (List web100_group)
  | [], cur, acc => .ok (flushGroup cur acc)
  | .group n :: rest, cur, acc =>
      attachLoop aid rest (some (freshGroup aid n, n = "spec"))
        (flushGroup cur acc)
  | .var n off ty :: rest, cur, acc =>
      match cur with
      | none => .error WEB100_ERR_HEADER
      | some (g, discard) =>
          attachLoop aid rest (some (addVar g n off ty, discard)) acc

/-- `_web100_agent_attach_local` from web100.c, over the already-tokenised
header body (the version line having been read first): builds the agent
with its exposed group list. Allocation failure (`WEB100_ERR_NOMEM`) is not
modelled. -/
def _web100_agent_attach_local (aid : Nat) (version : String)
    (toks : List HeaderTok) : Except Nat web100_agent :=
  (attachLoop aid toks none []).map
    (fun gs => ⟨aid, WEB100_AGENT_TYPE_LOCAL, version, gs⟩)

/-- `web100_group_find` from web100.c: on a local agent, linear scan of the
group list by `strcmp` equality; returns the found group or `none`, paired
with the value left in `web100_errno` (which the C sets to
`WEB100_ERR_SUCCESS` whether or not a group was found). -/
def web100_group_find (agent : web100_agent) (name : String) :
    Option web100_group × Nat :=
  if agent.type ≠ WEB100_AGENT_TYPE_LOCAL then (none, WEB100_ERR_AGENT_TYPE)
  else (agent.groups.find? (fun gp => gp.name = name), WEB100_ERR_SUCCESS)

/-- `web100_var_find` from web100.c: on a group of a local agent, linear
scan of the var list by `strcmp` equality; returns the found var or `none`,
paired with the value left in `web100_errno` (set to `WEB100_ERR_SUCCESS`
whether or not a var was found). -/
def web100_var_find (group : web100_group) (name : String) :
    Option web100_var × Nat :=
  if group.agent.type ≠ WEB100_AGENT_TYPE_LOCAL then
    (none, WEB100_ERR_AGENT_TYPE)
  else (group.vars.find? (fun vp => vp.name = name), WEB100_ERR_SUCCESS)

/-- Variable records as written in the header: name, offset, type. -/
def mkVarToks (vs : List (String × Nat × WEB100_TYPE)) : List HeaderTok :=
  vs.map (fun v => HeaderTok.var v.1 v.2.1 v.2.2)

/-- Sum of the wire-type sizes of a list of header variable records. -/
def varsSizeSum (vs : List (String × Nat × WEB100_TYPE)) : Nat :=
  (vs.map (fun v => size_from_type v.2.2)).sum

/-- The group obtained by folding a run of variable records into `g`, one
`addVar` per record, in declaration order. -/
def foldVars (g : web100_group) (vs : List (String × Nat × WEB100_TYPE)) :
    web100_group :=
  vs.foldl (fun g v => addVar g v.1 v.2.1 v.2.2) g

/-! ## Value codec and snapshot/delta engine -/

/-- Little-endian value of a byte buffer, as produced by `memcpy` into a
host integer on a little-endian machine; each element is reduced mod 256
so that any `List Nat` is read as a byte buffer. -/
def decodeLE : List Nat → Nat
  | [] => 0
  | b :: bs => b % 256 + 256 * decodeLE bs

/-- The `n` low-order bytes of `v`, little-endian: the bytes `memcpy` takes
from a host integer on a little-endian machine. -/
def encodeLE : Nat → Nat → List Nat
  | 0, _ => []
  | n + 1, v => v % 256 :: encodeLE n (v / 256)

/-- `struct web100_snapshot` from web100-int.h as used by web100.c: owning
group, owning connection (its id), and the raw data buffer. -/
structure web100_snapshot where
  group : GroupRef
  connection : Int
  data : List Nat
deriving DecidableEq, Repr

/-- `web100_snap_read` from web100.c: fails with `WEB100_ERR_INVAL` when
the variable's group is not the snapshot's group, otherwise copies
`size_from_type(var->type)` bytes from the buffer at the variable's
offset. -/
def web100_snap_read (var : web100_var) (snap : web100_snapshot) :
    Except Nat (List Nat) :=
  if var.group ≠ snap.group then .error WEB100_ERR_INVAL
  else .ok ((snap.data.drop var.offset).take (size_from_type var.type))

/-- `web100_delta_any` from web100.c: fails with `WEB100_ERR_INVAL` when
the two snapshots' groups differ; otherwise reads the variable from both
snapshots into 64-bit unsigned values, subtracts with the wraparound of
`unsigned long long` arithmetic (`% 2 ^ 64` written out), and copies the
low `size_from_type(var->type)` bytes of the result to the output. -/
def web100_delta_any (var : web100_var) (s1 s2 : web100_snapshot) :
    Except Nat (List Nat) :=
  if s1.group ≠ s2.group then .error WEB100_ERR_INVAL
  else
    match web100_snap_read var s1, web100_snap_read var s2 with
    | .ok b1, .ok b2 =>
        .ok (encodeLE (size_from_type var.type)
          ((decodeLE b1 + 2 ^ 64 - decodeLE b2) % 2 ^ 64))
    | .error e, _ => .error e
    | .ok _, .error e => .error e

/-! ## Connection catalog (`refresh_connections`, `web100_connection_head`) -/

/-- Value of the leading run of decimal digits of `cs`, accumulated onto
`acc`; stops at the first non-digit. -/
def digitsVal : List Char → Nat → Nat
  | [], acc => acc
  | c :: cs, acc =>
      if c.isDigit then digitsVal cs (acc * 10 + (c.toNat - 48)) else acc

/-- C `atoi`: skip leading whitespace, optional sign, then the value of
the leading run of decimal digits (0 when there are none). Overflow is not
modelled; C `isspace` over ASCII names is modelled by
`Char.isWhitespace`. -/
def atoi (s : String) : Int :=
  match s.data.dropWhile (fun c => c.isWhitespace) with
  | [] => 0
  | c :: rest =>
      if c = '-' then -(digitsVal rest 0 : Int)
      else if c = '+' then (digitsVal rest 0 : Int)
      else (digitsVal (c :: rest) 0 : Int)

/-- The entry filter of `refresh_connections` (web100.c lines 235-237): an
entry is processed unless `atoi(name) == 0` and its first character is not
'0'. -/
def accept_name (s : String) : Bool :=
  ¬(atoi s = 0 ∧ s.data.head? ≠ some '0')

/-- Stated from the claim's words, for comparison with `accept_name`: a
name that parses as an integer in the strict sense — an optional minus
sign followed by one or more decimal digits (the unsigned form, including
"0", being the non-negative case). -/
def name_is_integer (s : String) : Bool :=
  match s.data with
  | [] => false
  | '-' :: rest => !rest.isEmpty && rest.all Char.isDigit
  | cs => cs.all Char.isDigit

/-- `struct web100_connection_spec` as filled by the four `fread` calls of
`refresh_connections`: destination port (2 bytes), destination address
(4 bytes), source port (2 bytes), source address (4 bytes), in that order;
each field kept as the value of the raw bytes `fread` stored into it. -/
structure web100_connection_spec where
  dst_port : Nat
  dst_addr : Nat
  src_port : Nat
  src_addr : Nat
deriving DecidableEq, Repr

/-- Reading the 12-byte spec record like the four `fread` calls of
`refresh_connections`: `none` models a short read (the file holds fewer
than 2+4+2+4 bytes). -/
def read_spec (bytes : List Nat) : Option web100_connection_spec :=
  if bytes.length < 12 then none
  else some ⟨decodeLE (bytes.take 2),
             decodeLE ((bytes.drop 2).take 4),
             decodeLE ((bytes.drop 6).take 2),
             decodeLE ((bytes.drop 8).take 4)⟩

/-- `struct web100_connection` (local kind) as used by web100.c: owning
agent, connection id, spec record. -/
structure web100_connection where
  agent : AgentRef
  cid : Int
  spec : web100_connection_spec
deriving DecidableEq, Repr

/-- Stand-in for the uninitialized `cp->spec` of a connection node whose
spec file could not be read (the C leaves the malloc'd bytes as they
were). -/
def default_spec : web100_connection_spec := ⟨0, 0, 0, 0⟩

/-- A spec file that cannot be opened is `none`; fewer than 12 bytes is a
short read. Either aborts `refresh_connections` with `WEB100_ERR_SYS`. -/
def spec_unreadable (specFile : String → Option (List Nat))
    (name : String) : Bool :=
  match specFile name with
  | none => true
  | some bytes => bytes.length < 12

/-- The entry loop of `refresh_connections` (web100.c lines 232-265) after
the old list has been freed and the head reset: `specFile name` is the
contents of `<root>/<name>/spec`. Entries failing the filter are skipped;
an accepted entry is prepended to the list (the C links `cp` before
opening the spec file) and its spec is read, a missing or short spec
record aborting the whole operation with `WEB100_ERR_SYS` and leaving the
partial list exactly as the C leaves `connection_head`. Allocation failure
is not modelled. -/
def refresh_loop (agent : AgentRef)
    (specFile : String → Option (List Nat)) :
    List String → List web100_connection →
    Except Nat Unit × List web100_connection
  | [], acc => (.ok (), acc)
  | name :: rest, acc =>
      if accept_name name then
        match specFile name with
        | none => (.error WEB100_ERR_SYS,
            ⟨agent, atoi name, default_spec⟩ :: acc)
        | some bytes =>
            match read_spec bytes with
            | none => (.error WEB100_ERR_SYS,
                ⟨agent, atoi name, default_spec⟩ :: acc)
            | some sp =>
                refresh_loop agent specFile rest
                  (⟨agent, atoi name, sp⟩ :: acc)
      else refresh_loop agent specFile rest acc

/-- `web100_connection_head` from web100.c on a local agent: discards the
previous list (`prev`), reruns `refresh_connections`, and returns NULL
(`none`) when the refresh failed, else the rebuilt list; the agent's
stored list is the second component either way. -/
def web100_connection_head (agent : AgentRef)
    (specFile : String → Option (List Nat)) (entries : List String)
    (_prev : List web100_connection) :
    Option (List web100_connection) × List web100_connection :=
  let r := refresh_loop agent specFile entries []
  match r.1 with
  | .error _ => (none, r.2)
  | .ok _ => (some r.2, r.2)

/-! ## Raw variable access (`web100_raw_read`, `web100_raw_write`) -/

/-- Modelled from the spec: the fixed well-known instrumentation root
(`WEB100_ROOT_DIR` lives in web100-int.h, which is not part of the
sources given). Only its identity as a fixed string matters here. -/
def WEB100_ROOT_DIR : String := "/proc/web100/"

/-- The `sprintf("%s/%d/%s", WEB100_ROOT_DIR, cid, group)` path of
`web100_raw_read` / `web100_raw_write` / `web100_snap`. -/
def conn_group_path (cid : Int) (gname : String) : String :=
  WEB100_ROOT_DIR ++ "/" ++ toString cid ++ "/" ++ gname

/-- `web100_raw_read` from web100.c over the per-connection per-group
files `fs` (path to contents): returns the result together with the list
of paths opened (all I/O the call performed). Mismatched agents fail with
`WEB100_ERR_INVAL` before any file is touched; an unopenable file is
`WEB100_ERR_NOCONNECTION`; a short read is `WEB100_ERR_SYS`. -/
def web100_raw_read (var : web100_var) (conn : web100_connection)
    (fs : String → Option (List Nat)) :
    Except Nat (List Nat) × List String :=
  if var.group.agent ≠ conn.agent then (.error WEB100_ERR_INVAL, [])
  else if conn.agent.type ≠ WEB100_AGENT_TYPE_LOCAL then
    (.error WEB100_ERR_AGENT_TYPE, [])
  else
    let filename := conn_group_path conn.cid var.group.name
    match fs filename with
    | none => (.error WEB100_ERR_NOCONNECTION, [filename])
    | some bytes =>
        if bytes.length < var.offset + size_from_type var.type then
          (.error WEB100_ERR_SYS, [filename])
        else
          (.ok ((bytes.drop var.offset).take (size_from_type var.type)),
            [filename])

/-- `web100_raw_write` from web100.c over the same file model: returns
the result, the list of paths opened, and the file system after the call.
Mismatched agents fail with `WEB100_ERR_INVAL` before any file is touched
and leave the files untouched. On the success path the `fopen(..., "w")`
truncation, the seek and the write leave the file as `offset` zero bytes
followed by the written bytes. -/
def web100_raw_write (var : web100_var) (conn : web100_connection)
    (buf : List Nat) (fs : String → Option (List Nat)) :
    Except Nat Unit × List String × (String → Option (List Nat)) :=
  if var.group.agent ≠ conn.agent then (.error WEB100_ERR_INVAL, [], fs)
  else if conn.agent.type ≠ WEB100_AGENT_TYPE_LOCAL then
    (.error WEB100_ERR_AGENT_TYPE, [], fs)
  else
    let filename := conn_group_path conn.cid var.group.name
    match fs filename with
    | none => (.error WEB100_ERR_NOCONNECTION, [filename], fs)
    | some _ =>
        (.ok (), [filename],
          fun p => if p = filename then
            some (List.replicate var.offset 0 ++
              buf.take (size_from_type var.type))
          else fs p)

/-! ## Correlation engine (`connection_info_refresh`) -/

/-- `WEB100_ADDRTYPE` from web100.h: address family of a connection, as
the correlation engine distinguishes it (v4/v6 per the data model). -/
inductive WEB100_ADDRTYPE where
  | IPV4
  | IPV6
deriving DecidableEq, Repr

/-- `struct web100_connection_spec_v6` as used by connection_info.c:
numeric ports, addresses in their textual representation (the v6 fields
are compared by `strcmp`). -/
structure web100_connection_spec_v6 where
  dst_port : Nat
  dst_addr : String
  src_port : Nat
  src_addr : String
deriving DecidableEq, Repr

/-- `struct connection_info` from connection_info-int.h as used by
connection_info.c: the one record shape shared by the three sources
(cid_data, tcp_data, fd_data) and by the emitted output. Fields a given
role leaves unset simply hold whatever value they were given, as the C
struct's unset fields do. -/
structure connection_info where
  cid : Int
  pid : Int
  uid : Nat
  state : Nat
  cmdline : String
  ino : Nat
  addrtype : WEB100_ADDRTYPE
  spec : web100_connection_spec
  spec_v6 : web100_connection_spec_v6
deriving DecidableEq, Repr

/-- `bzero(ci, sizeof(struct connection_info))`: the all-zero record (the
zero address family is immediately overwritten on every emission path, so
`IPV4` stands in for it). -/
def connection_info.zero : connection_info :=
  ⟨0, 0, 0, 0, "", 0, .IPV4, ⟨0, 0, 0, 0⟩, ⟨0, "", 0, ""⟩⟩

/-- The Source-B match test of the collation loop (connection_info.c lines
302-311): selected by the B (`tcp_data`) entry's own address family; the
IPv4 arm compares the raw addresses and ports of the v4 spec, the IPv6 arm
compares the textual destination address (`strcmp`) and the ports of the
v6 spec. The A (`cid_data`) record's own address family is not
consulted. -/
def tcp_match (tcp_data cid_data : connection_info) : Bool :=
  (tcp_data.addrtype = WEB100_ADDRTYPE.IPV4 ∧
    tcp_data.spec.dst_port = cid_data.spec.dst_port ∧
    tcp_data.spec.dst_addr = cid_data.spec.dst_addr ∧
    tcp_data.spec.src_port = cid_data.spec.src_port) ∨
  (tcp_data.addrtype = WEB100_ADDRTYPE.IPV6 ∧
    tcp_data.spec_v6.dst_port = cid_data.spec_v6.dst_port ∧
    tcp_data.spec_v6.dst_addr = cid_data.spec_v6.dst_addr ∧
    tcp_data.spec_v6.src_port = cid_data.spec_v6.src_port)

/-- The Source-B match test as the specification words it, stated for
comparison with `tcp_match`: the B entry's address family must equal the A
record's, and the (destination address, destination port, source port) of
that family must be equal — raw 4-byte equality for IPv4, textual equality
for IPv6. -/
def spec_stated_match (tcp_data cid_data : connection_info) : Bool :=
  tcp_data.addrtype = cid_data.addrtype ∧
  ((tcp_data.addrtype = WEB100_ADDRTYPE.IPV4 ∧
      tcp_data.spec.dst_addr = cid_data.spec.dst_addr ∧
      tcp_data.spec.dst_port = cid_data.spec.dst_port ∧
      tcp_data.spec.src_port = cid_data.spec.src_port) ∨
   (tcp_data.addrtype = WEB100_ADDRTYPE.IPV6 ∧
      tcp_data.spec_v6.dst_addr = cid_data.spec_v6.dst_addr ∧
      tcp_data.spec_v6.dst_port = cid_data.spec_v6.dst_port ∧
      tcp_data.spec_v6.src_port = cid_data.spec_v6.src_port))

/-- The `bzero` followed by the identity/tuple copies shared by every
emission path (connection_info.c): A's connection id and address family,
and A's spec of that family (`memcpy` guarded by the address-family
tests); the other family's spec stays zeroed. -/
def copy_tuple (base cid_data : connection_info) : connection_info :=
  { base with
    cid := cid_data.cid
    addrtype := cid_data.addrtype
    spec := if cid_data.addrtype = WEB100_ADDRTYPE.IPV4 then cid_data.spec
      else base.spec
    spec_v6 := if cid_data.addrtype = WEB100_ADDRTYPE.IPV6 then
      cid_data.spec_v6 else base.spec_v6 }

/-- Record emitted for an (A, B, C) triple (connection_info.c lines
320-337): C's pid and command name, B's uid and state, A's identity and
tuple. -/
def emit_fd (cid_data tcp_data fd_data : connection_info) :
    connection_info :=
  copy_tuple
    { connection_info.zero with
      pid := fd_data.pid
      cmdline := fd_data.cmdline
      uid := tcp_data.uid
      state := tcp_data.state } cid_data

/-- Record emitted for a B match with no C match (connection_info.c lines
340-359): B's uid and state, pid 0 and empty command name, A's identity
and tuple. -/
def emit_no_fd (cid_data tcp_data : connection_info) : connection_info :=
  copy_tuple
    { connection_info.zero with
      pid := 0
      cmdline := ""
      uid := tcp_data.uid
      state := tcp_data.state } cid_data

/-- Residual record for an A with no B match (connection_info.c lines
362-377): only A's identity and tuple on an otherwise zeroed record. -/
def emit_residual (cid_data : connection_info) : connection_info :=
  copy_tuple connection_info.zero cid_data

/-- Records emitted for one A record and one matching B entry
(connection_info.c lines 314-359): one `emit_fd` per C entry sharing B's
inode, or a single `emit_no_fd` fallback when no C entry does. The C
builds `res` by prepending; records are given here in emission order. -/
def emit_tcp (cid_data : connection_info) (fd_head : List connection_info)
    (tcp_data : connection_info) : List connection_info :=
  let fds := fd_head.filter (fun fd_data => fd_data.ino = tcp_data.ino)
  if fds.isEmpty then [emit_no_fd cid_data tcp_data]
  else fds.map (emit_fd cid_data tcp_data)

/-- Records emitted for one A record (connection_info.c lines 299-377):
the concatenated emissions over the B entries that match it, or the
residual record when none does. -/
def process_cid (cid_data : connection_info)
    (tcp_head fd_head : List connection_info) : List connection_info :=
  let ms := tcp_head.filter (fun tcp_data => tcp_match tcp_data cid_data)
  if ms.isEmpty then [emit_residual cid_data]
  else ms.flatMap (emit_tcp cid_data fd_head)

/-- The collation of `connection_info_refresh` over the already-parsed
sources A (`cid_list`), B (`tcp_head`) and C (`fd_head`), in emission
order. -/
def connection_info_refresh (cid_list tcp_head fd_head :
    List connection_info) : List connection_info :=
  cid_list.flatMap (fun cid_data => process_cid cid_data tcp_head fd_head)

/-! Example records used to instantiate the correlation theorems at
concrete inputs (the `testable properties` scenario of the spec): one
Source-A record (cid 5, IPv4, tuple 10.0.0.1:80 / 10.0.0.2:4000), a
Source-B socket entry with the same tuple (state 1, uid 1000, inode 123),
a Source-B entry whose destination port differs, a Source-C holder of
inode 123 (pid 42, command "curl"), and an IPv6 Source-A record whose
(never-initialised) v4 fields happen to coincide with the v4 entry's. -/

def cid_ex : connection_info :=
  ⟨5, 0, 0, 0, "", 0, .IPV4, ⟨80, 167772161, 4000, 167772162⟩,
    ⟨0, "", 0, ""⟩⟩

def tcp_ex : connection_info :=
  ⟨0, 0, 1000, 1, "", 123, .IPV4, ⟨80, 167772161, 4000, 167772162⟩,
    ⟨0, "", 0, ""⟩⟩

def tcp_nomatch_ex : connection_info :=
  ⟨0, 0, 1000, 1, "", 123, .IPV4, ⟨81, 167772161, 4000, 167772162⟩,
    ⟨0, "", 0, ""⟩⟩

def fd_ex : connection_info :=
  ⟨0, 42, 0, 0, "curl", 123, .IPV4, ⟨0, 0, 0, 0⟩, ⟨0, "", 0, ""⟩⟩

def cid_v6_ex : connection_info :=
  ⟨5, 0, 0, 0, "", 0, .IPV6, ⟨80, 167772161, 4000, 167772162⟩,
    ⟨99, "::1", 98, "::2"⟩⟩

end Web100

/-! # Theorems -/

namespace Web100

/-! ## Helper lemmas for the header parse -/

theorem foldVars_nil (g : web100_group) : foldVars g [] = g := rfl

theorem foldVars_cons (g : web100_group) (v : String × Nat × WEB100_TYPE)
    (vs : List (String × Nat × WEB100_TYPE)) :
    foldVars g (v :: vs) = foldVars (addVar g v.1 v.2.1 v.2.2) vs := rfl

theorem foldVars_nvars (vs : List (String × Nat × WEB100_TYPE)) :
    ∀ g : web100_group, (foldVars g vs).nvars = g.nvars + vs.length := by
  induction vs with
  | nil => intro g; simp [foldVars]
  | cons v vs ih =>
      intro g
      rw [foldVars_cons, ih]
      simp [addVar]
      omega

theorem foldVars_size (vs : List (String × Nat × WEB100_TYPE)) :
    ∀ g : web100_group, (foldVars g vs).size = g.size + varsSizeSum vs := by
  induction vs with
  | nil => intro g; simp [foldVars, varsSizeSum]
  | cons v vs ih =>
      intro g
      rw [foldVars_cons, ih]
      simp [addVar, varsSizeSum]
      omega

theorem foldVars_name (vs : List (String × Nat × WEB100_TYPE)) :
    ∀ g : web100_group, (foldVars g vs).name = g.name := by
  induction vs with
  | nil => intro g; simp [foldVars]
  | cons v vs ih =>
      intro g
      rw [foldVars_cons, ih]
      simp [addVar]

/-- Running the parse loop over a run of variable records folds them into
the current group and leaves the rest of the stream to process. -/
theorem attachLoop_vars (aid : Nat) (vs : List (String × Nat × WEB100_TYPE)) :
    ∀ (rest : List HeaderTok) (g : web100_group) (d : Bool)
      (acc : List web100_group),
      attachLoop aid (mkVarToks vs ++ rest) (some (g, d)) acc =
        attachLoop aid rest (some (foldVars g vs, d)) acc := by
  induction vs with
  | nil => intro rest g d acc; simp [mkVarToks, foldVars]
  | cons v vs ih =>
      intro rest g d acc
      rw [foldVars_cons]
      simpa [mkVarToks, attachLoop] using ih rest (addVar g v.1 v.2.1 v.2.2) d acc

/-- C5: parsing a header that contains the specially named "spec" group
(with any variable records) and one ordinary group with N variable records
yields a catalog exposing exactly one group, whose variable count is N and
whose size is the sum of its variables' wire-type sizes; the "spec" group
appears neither through group enumeration nor through `web100_group_find`.
Both orders of the two groups in the header are covered. -/
theorem attach_local_discards_spec_group (aid : Nat) (version gname : String)
    (sVars vVars : List (String × Nat × WEB100_TYPE)) (h : gname ≠ "spec") :
    ∃ g : web100_group,
      _web100_agent_attach_local aid version
          (HeaderTok.group "spec" :: mkVarToks sVars ++
            HeaderTok.group gname :: mkVarToks vVars) =
        .ok ⟨aid, WEB100_AGENT_TYPE_LOCAL, version, [g]⟩ ∧
      _web100_agent_attach_local aid version
          (HeaderTok.group gname :: mkVarToks vVars ++
            HeaderTok.group "spec" :: mkVarToks sVars) =
        .ok ⟨aid, WEB100_AGENT_TYPE_LOCAL, version, [g]⟩ ∧
      g.name = gname ∧
      g.nvars = vVars.length ∧
      g.size = varsSizeSum vVars ∧
      (web100_group_find ⟨aid, WEB100_AGENT_TYPE_LOCAL, version, [g]⟩
          "spec").1 = none ∧
      (∀ g' ∈ [g], g'.name ≠ "spec") := by
  refine ⟨foldVars (freshGroup aid gname) vVars, ?_, ?_, ?_, ?_, ?_, ?_, ?_⟩
  · unfold _web100_agent_attach_local
    have e1 : attachLoop aid
        (HeaderTok.group "spec" :: (mkVarToks sVars ++
          HeaderTok.group gname :: mkVarToks vVars)) none [] =
        .ok [foldVars (freshGroup aid gname) vVars] := by
      calc attachLoop aid
            (HeaderTok.group "spec" :: (mkVarToks sVars ++
              HeaderTok.group gname :: mkVarToks vVars)) none []
          = attachLoop aid
              (mkVarToks sVars ++ HeaderTok.group gname :: mkVarToks vVars)
              (some (freshGroup aid "spec", true)) [] := by
            simp [attachLoop, flushGroup]
        _ = attachLoop aid (HeaderTok.group gname :: mkVarToks vVars)
              (some (foldVars (freshGroup aid "spec") sVars, true)) [] := by
            rw [attachLoop_vars]
        _ = attachLoop aid (mkVarToks vVars)
              (some (freshGroup aid gname, false)) [] := by
            simp [attachLoop, flushGroup, h]
        _ = attachLoop aid []
              (some (foldVars (freshGroup aid gname) vVars, false)) [] := by
            simpa using attachLoop_vars aid vVars [] (freshGroup aid gname)
              false []
        _ = .ok [foldVars (freshGroup aid gname) vVars] := by
            simp [attachLoop, flushGroup]
    rw [List.cons_append, e1]
    rfl
  · unfold _web100_agent_attach_local
    have e2 : attachLoop aid
        (HeaderTok.group gname :: (mkVarToks vVars ++
          HeaderTok.group "spec" :: mkVarToks sVars)) none [] =
        .ok [foldVars (freshGroup aid gname) vVars] := by
      calc attachLoop aid
            (HeaderTok.group gname :: (mkVarToks vVars ++
              HeaderTok.group "spec" :: mkVarToks sVars)) none []
          = attachLoop aid
              (mkVarToks vVars ++ HeaderTok.group "spec" :: mkVarToks sVars)
              (some (freshGroup aid gname, false)) [] := by
            simp [attachLoop, flushGroup, h]
        _ = attachLoop aid (HeaderTok.group "spec" :: mkVarToks sVars)
              (some (foldVars (freshGroup aid gname) vVars, false)) [] := by
            rw [attachLoop_vars]
        _ = attachLoop aid (mkVarToks sVars)
              (some (freshGroup aid "spec", true))
              [foldVars (freshGroup aid gname) vVars] := by
            simp [attachLoop, flushGroup]
        _ = attachLoop aid []
              (some (foldVars (freshGroup aid "spec") sVars, true))
              [foldVars (freshGroup aid gname) vVars] := by
            simpa using attachLoop_vars aid sVars [] (freshGroup aid "spec")
              true [foldVars (freshGroup aid gname) vVars]
        _ = .ok [foldVars (freshGroup aid gname) vVars] := by
            simp [attachLoop, flushGroup]
    rw [List.cons_append, e2]
    rfl
  · simp [foldVars_name, freshGroup]
  · simp [foldVars_nvars, freshGroup]
  · simp [foldVars_size, freshGroup]
  · have hname : (foldVars (freshGroup aid gname) vVars).name = gname := by
      simp [foldVars_name, freshGroup]
    simp [web100_group_find, WEB100_AGENT_TYPE_LOCAL, List.find?, hname, h]
  · intro g' hg'
    have hname : (foldVars (freshGroup aid gname) vVars).name = gname := by
      simp [foldVars_name, freshGroup]
    simp only [List.mem_singleton] at hg'
    rw [hg', hname]
    exact h

/-- Witness for C5 at a concrete header: one "spec" group with one
variable record and one ordinary group "read" with two variable records. -/
theorem attach_local_discards_spec_group_witness :
    ∃ g : web100_group,
      _web100_agent_attach_local 0 "1.0"
          (HeaderTok.group "spec" ::
            mkVarToks [("DstPort", 0, WEB100_TYPE.UNSIGNED16)] ++
            HeaderTok.group "read" ::
            mkVarToks [("LocalAddress", 0, WEB100_TYPE.IP_ADDRESS),
                       ("LocalPort", 4, WEB100_TYPE.UNSIGNED16)]) =
        .ok ⟨0, WEB100_AGENT_TYPE_LOCAL, "1.0", [g]⟩ ∧
      _web100_agent_attach_local 0 "1.0"
          (HeaderTok.group "read" ::
            mkVarToks [("LocalAddress", 0, WEB100_TYPE.IP_ADDRESS),
                       ("LocalPort", 4, WEB100_TYPE.UNSIGNED16)] ++
            HeaderTok.group "spec" ::
            mkVarToks [("DstPort", 0, WEB100_TYPE.UNSIGNED16)]) =
        .ok ⟨0, WEB100_AGENT_TYPE_LOCAL, "1.0", [g]⟩ ∧
      g.name = "read" ∧
      g.nvars = [("LocalAddress", 0, WEB100_TYPE.IP_ADDRESS),
                 ("LocalPort", 4, WEB100_TYPE.UNSIGNED16)].length ∧
      g.size = varsSizeSum [("LocalAddress", 0, WEB100_TYPE.IP_ADDRESS),
                            ("LocalPort", 4, WEB100_TYPE.UNSIGNED16)] ∧
      (web100_group_find ⟨0, WEB100_AGENT_TYPE_LOCAL, "1.0", [g]⟩
          "spec").1 = none ∧
      (∀ g' ∈ [g], g'.name ≠ "spec") :=
  attach_local_discards_spec_group 0 "1.0" "read"
    [("DstPort", 0, WEB100_TYPE.UNSIGNED16)]
    [("LocalAddress", 0, WEB100_TYPE.IP_ADDRESS),
     ("LocalPort", 4, WEB100_TYPE.UNSIGNED16)] (by decide)

/-! ## Helper lemmas for the value codec -/

theorem decodeLE_lt (l : List Nat) : decodeLE l < 2 ^ (8 * l.length) := by
  induction l with
  | nil => simp [decodeLE]
  | cons b bs ih =>
      have hb : b % 256 < 256 := Nat.mod_lt _ (by norm_num)
      have hp : 2 ^ (8 * (bs.length + 1)) = 256 * 2 ^ (8 * bs.length) := by
        rw [Nat.mul_add, Nat.pow_add]
        ring
      simp only [decodeLE, List.length_cons, hp]
      omega

theorem encodeLE_length (n v : Nat) : (encodeLE n v).length = n := by
  induction n generalizing v with
  | zero => simp [encodeLE]
  | succ n ih => simp [encodeLE, ih]

theorem decodeLE_encodeLE (n v : Nat) :
    decodeLE (encodeLE n v) = v % 2 ^ (8 * n) := by
  induction n generalizing v with
  | zero => simp [encodeLE, decodeLE, Nat.mod_one]
  | succ n ih =>
      have hp : 2 ^ (8 * (n + 1)) = 256 * 2 ^ (8 * n) := by
        rw [Nat.mul_add, Nat.pow_add]
        ring
      simp only [encodeLE, decodeLE, ih, hp]
      rw [Nat.mod_mul]
      simp [Nat.mod_mod_of_dvd]

theorem size_from_type_le (ty : WEB100_TYPE) : size_from_type ty ≤ 8 := by
  cases ty <;> simp [size_from_type]

/-- Truncating the 64-bit wraparound difference to `w ≤ 64` bits agrees
with the `w`-bit wraparound difference. -/
theorem wrap_trunc (v1 v2 a : Nat) (ha : a ≤ 64) (h2 : v2 ≤ 2 ^ a) :
    ((v1 + 2 ^ 64 - v2) % 2 ^ 64) % 2 ^ a = (v1 + 2 ^ a - v2) % 2 ^ a := by
  have hdvd : (2 : Nat) ^ a ∣ 2 ^ 64 := pow_dvd_pow 2 ha
  have hle : (2 : Nat) ^ a ≤ 2 ^ 64 := Nat.pow_le_pow_right (by norm_num) ha
  rw [Nat.mod_mod_of_dvd _ hdvd]
  have hsplit : v1 + 2 ^ 64 - v2 = (v1 + 2 ^ a - v2) + (2 ^ 64 - 2 ^ a) := by
    omega
  have hdvd2 : (2 : Nat) ^ a ∣ 2 ^ 64 - 2 ^ a := Nat.dvd_sub' hdvd dvd_rfl
  obtain ⟨k, hk⟩ := hdvd2
  rw [hsplit, hk, Nat.add_mul_mod_self_left]

/-! ## C4: delta semantics -/

/-- C4: for a variable of a snapshot pair sharing the same group (the
variable belonging to that group), `web100_delta_any` succeeds and writes
the unsigned wraparound difference `decode(A) - decode(B)` truncated to the
variable's native wire-type width `w = 8 * size_from_type`; it never fails
or clamps in the wraparound case. When the two snapshots' groups differ it
fails with `WEB100_ERR_INVAL`. -/
theorem web100_delta_any_wraparound (var : web100_var)
    (s1 s2 : web100_snapshot) :
    (s1.group ≠ s2.group →
      web100_delta_any var s1 s2 = .error WEB100_ERR_INVAL) ∧
    (s1.group = s2.group → var.group = s1.group →
      ∃ out, web100_delta_any var s1 s2 = .ok out ∧
        out.length = size_from_type var.type ∧
        decodeLE out =
          (decodeLE ((s1.data.drop var.offset).take (size_from_type var.type))
            + 2 ^ (8 * size_from_type var.type) -
           decodeLE ((s2.data.drop var.offset).take (size_from_type var.type)))
          % 2 ^ (8 * size_from_type var.type)) := by
  constructor
  · intro hne
    simp [web100_delta_any, hne]
  · intro hgg hvg
    have hvg2 : var.group = s2.group := hvg.trans hgg
    set b1 := (s1.data.drop var.offset).take (size_from_type var.type) with hb1
    set b2 := (s2.data.drop var.offset).take (size_from_type var.type) with hb2
    have hr1 : web100_snap_read var s1 = .ok b1 := by
      simp [web100_snap_read, hvg]
    have hr2 : web100_snap_read var s2 = .ok b2 := by
      simp [web100_snap_read, hvg2]
    refine ⟨encodeLE (size_from_type var.type)
      ((decodeLE b1 + 2 ^ 64 - decodeLE b2) % 2 ^ 64), ?_, ?_, ?_⟩
    · simp [web100_delta_any, hgg, hr1, hr2]
    · exact encodeLE_length _ _
    · rw [decodeLE_encodeLE]
      apply wrap_trunc
      · have := size_from_type_le var.type
        omega
      · have hlen : b2.length ≤ size_from_type var.type := by
          rw [hb2]
          exact List.length_take_le _ _
        have hlt := decodeLE_lt b2
        have hmono : (2 : Nat) ^ (8 * b2.length) ≤
            2 ^ (8 * size_from_type var.type) :=
          Nat.pow_le_pow_right (by norm_num) (by omega)
        omega

/-- Witness for C4 at a concrete input: a 16-bit counter whose later
snapshot reads 1 and earlier reads 3, under the same group; the delta is
the modular difference 65534 (bytes [254, 255] little-endian), not an
error and not zero. -/
theorem web100_delta_any_wraparound_witness :
    (∃ out,
      web100_delta_any
          ⟨⟨⟨0, WEB100_AGENT_TYPE_LOCAL⟩, "read"⟩, "X", 0, .UNSIGNED16⟩
          ⟨⟨⟨0, WEB100_AGENT_TYPE_LOCAL⟩, "read"⟩, 1, [1, 0]⟩
          ⟨⟨⟨0, WEB100_AGENT_TYPE_LOCAL⟩, "read"⟩, 1, [3, 0]⟩ = .ok out ∧
      out.length = size_from_type WEB100_TYPE.UNSIGNED16 ∧
      decodeLE out =
        (decodeLE ((([1, 0] : List Nat).drop 0).take
            (size_from_type WEB100_TYPE.UNSIGNED16))
          + 2 ^ (8 * size_from_type WEB100_TYPE.UNSIGNED16) -
         decodeLE ((([3, 0] : List Nat).drop 0).take
            (size_from_type WEB100_TYPE.UNSIGNED16)))
        % 2 ^ (8 * size_from_type WEB100_TYPE.UNSIGNED16)) ∧
    web100_delta_any
        ⟨⟨⟨0, WEB100_AGENT_TYPE_LOCAL⟩, "read"⟩, "X", 0, .UNSIGNED16⟩
        ⟨⟨⟨0, WEB100_AGENT_TYPE_LOCAL⟩, "read"⟩, 1, [1, 0]⟩
        ⟨⟨⟨0, WEB100_AGENT_TYPE_LOCAL⟩, "read"⟩, 1, [3, 0]⟩ =
      .ok [254, 255] := by
  constructor
  · exact (web100_delta_any_wraparound
      ⟨⟨⟨0, WEB100_AGENT_TYPE_LOCAL⟩, "read"⟩, "X", 0, .UNSIGNED16⟩
      ⟨⟨⟨0, WEB100_AGENT_TYPE_LOCAL⟩, "read"⟩, 1, [1, 0]⟩
      ⟨⟨⟨0, WEB100_AGENT_TYPE_LOCAL⟩, "read"⟩, 1, [3, 0]⟩).2 rfl rfl
  · rfl

/-! ## C1: the Source-B match condition -/

/-- C1 counterexample: the B entry `tcp_ex` is IPv4 while the A record
`cid_v6_ex` is IPv6, so under the claim's condition (address families must
match) there is no match — yet the collation loop's test accepts the pair,
because it consults only the B entry's address family and compares the A
record's v4 fields even though A is IPv6. -/
theorem tcp_match_family_counterexample :
    tcp_match tcp_ex cid_v6_ex = true ∧
    spec_stated_match tcp_ex cid_v6_ex = false ∧
    tcp_ex.addrtype ≠ cid_v6_ex.addrtype := by
  refine ⟨by decide, by decide, by decide⟩

/-- C1 (amended): a Source-B entry matches a Source-A record iff, under
the B entry's own address family — A's address-family field is not
consulted — the corresponding tuple fields are equal: for an IPv4 B entry
the raw 4-byte destination address, destination port and source port of
the v4 specs; for an IPv6 B entry the textual destination address and the
ports of the v6 specs. -/
theorem tcp_match_by_b_family (tcp_data cid_data : connection_info) :
    tcp_match tcp_data cid_data = true ↔
      ((tcp_data.addrtype = WEB100_ADDRTYPE.IPV4 ∧
        tcp_data.spec.dst_addr = cid_data.spec.dst_addr ∧
        tcp_data.spec.dst_port = cid_data.spec.dst_port ∧
        tcp_data.spec.src_port = cid_data.spec.src_port) ∨
       (tcp_data.addrtype = WEB100_ADDRTYPE.IPV6 ∧
        tcp_data.spec_v6.dst_addr = cid_data.spec_v6.dst_addr ∧
        tcp_data.spec_v6.dst_port = cid_data.spec_v6.dst_port ∧
        tcp_data.spec_v6.src_port = cid_data.spec_v6.src_port)) := by
  simp only [tcp_match, decide_eq_true_eq]
  tauto

/-! ## C2: residual record for an unmatched Source-A record -/

/-- C2: a Source-A record matching no Source-B entry contributes exactly
one ConnectionInfo: A's connection id, address family and 4-tuple (the
spec of A's family), with pid 0, uid and state zero and an empty command
name. -/
theorem process_cid_no_match (cid_data : connection_info)
    (tcp_head fd_head : List connection_info)
    (h : ∀ t ∈ tcp_head, tcp_match t cid_data = false) :
    process_cid cid_data tcp_head fd_head = [emit_residual cid_data] ∧
    (emit_residual cid_data).cid = cid_data.cid ∧
    (emit_residual cid_data).addrtype = cid_data.addrtype ∧
    (emit_residual cid_data).pid = 0 ∧
    (emit_residual cid_data).uid = 0 ∧
    (emit_residual cid_data).state = 0 ∧
    (emit_residual cid_data).cmdline = "" ∧
    (cid_data.addrtype = WEB100_ADDRTYPE.IPV4 →
      (emit_residual cid_data).spec = cid_data.spec) ∧
    (cid_data.addrtype = WEB100_ADDRTYPE.IPV6 →
      (emit_residual cid_data).spec_v6 = cid_data.spec_v6) := by
  have hf : tcp_head.filter (fun t => tcp_match t cid_data) = [] := by
    rw [List.filter_eq_nil_iff]
    intro a hmem
    simp [h a hmem]
  refine ⟨?_, rfl, rfl, rfl, rfl, rfl, rfl, ?_, ?_⟩
  · simp [process_cid, hf]
  · intro h4
    simp [emit_residual, copy_tuple, h4]
  · intro h6
    simp [emit_residual, copy_tuple, h6]

/-- Witness for C2: the example A record against a B table whose only
entry differs in destination port. -/
theorem process_cid_no_match_witness :
    process_cid cid_ex [tcp_nomatch_ex] [] = [emit_residual cid_ex] ∧
    (emit_residual cid_ex).cid = cid_ex.cid ∧
    (emit_residual cid_ex).addrtype = cid_ex.addrtype ∧
    (emit_residual cid_ex).pid = 0 ∧
    (emit_residual cid_ex).uid = 0 ∧
    (emit_residual cid_ex).state = 0 ∧
    (emit_residual cid_ex).cmdline = "" ∧
    (cid_ex.addrtype = WEB100_ADDRTYPE.IPV4 →
      (emit_residual cid_ex).spec = cid_ex.spec) ∧
    (cid_ex.addrtype = WEB100_ADDRTYPE.IPV6 →
      (emit_residual cid_ex).spec_v6 = cid_ex.spec_v6) :=
  process_cid_no_match cid_ex [tcp_nomatch_ex] [] (by decide)

/-! ## C3: fan-out over Source-C holders of a matched socket -/

/-- C3: for a Source-A record and a matching Source-B entry, the loop
emits one record per Source-C entry holding B's inode — carrying that C
entry's pid and command name together with B's uid and state and A's
identity and tuple — and, when no C entry holds the inode, exactly one
fallback record with B's uid and state, pid 0 and an empty command name.
The last conjunct ties the per-B emission into the per-A loop: with at
least one matching B entry, the emissions of all matching B entries are
concatenated. -/
theorem emit_tcp_fanout (cid_data tcp_data : connection_info)
    (fd_head : List connection_info) :
    (fd_head.filter (fun fd_data => fd_data.ino = tcp_data.ino) = [] →
      emit_tcp cid_data fd_head tcp_data = [emit_no_fd cid_data tcp_data]) ∧
    (fd_head.filter (fun fd_data => fd_data.ino = tcp_data.ino) ≠ [] →
      emit_tcp cid_data fd_head tcp_data =
        (fd_head.filter (fun fd_data => fd_data.ino = tcp_data.ino)).map
          (emit_fd cid_data tcp_data)) ∧
    ((emit_no_fd cid_data tcp_data).pid = 0 ∧
     (emit_no_fd cid_data tcp_data).cmdline = "" ∧
     (emit_no_fd cid_data tcp_data).uid = tcp_data.uid ∧
     (emit_no_fd cid_data tcp_data).state = tcp_data.state ∧
     (emit_no_fd cid_data tcp_data).cid = cid_data.cid ∧
     (emit_no_fd cid_data tcp_data).addrtype = cid_data.addrtype) ∧
    (∀ fd_data,
      (emit_fd cid_data tcp_data fd_data).pid = fd_data.pid ∧
      (emit_fd cid_data tcp_data fd_data).cmdline = fd_data.cmdline ∧
      (emit_fd cid_data tcp_data fd_data).uid = tcp_data.uid ∧
      (emit_fd cid_data tcp_data fd_data).state = tcp_data.state ∧
      (emit_fd cid_data tcp_data fd_data).cid = cid_data.cid ∧
      (emit_fd cid_data tcp_data fd_data).addrtype = cid_data.addrtype) ∧
    (∀ tcp_head : List connection_info,
      tcp_head.filter (fun t => tcp_match t cid_data) ≠ [] →
      process_cid cid_data tcp_head fd_head =
        (tcp_head.filter (fun t => tcp_match t cid_data)).flatMap
          (emit_tcp cid_data fd_head)) := by
  refine ⟨?_, ?_, ⟨rfl, rfl, rfl, rfl, rfl, rfl⟩,
    fun fd_data => ⟨rfl, rfl, rfl, rfl, rfl, rfl⟩, ?_⟩
  · intro hf
    simp [emit_tcp, hf]
  · intro hf
    rw [emit_tcp]
    rw [if_neg]
    simpa [List.isEmpty_iff] using hf
  · intro tcp_head hne
    rw [process_cid]
    rw [if_neg]
    simpa [List.isEmpty_iff] using hne

/-- Witness for C3 at the example records: with `fd_ex` holding inode 123
the pair (A, B) yields the single combined record with pid 42 and command
"curl"; with an empty Source C it yields the single fallback record; and
the per-A loop over the one matching B entry is the concatenation of that
entry's emissions. -/
theorem emit_tcp_fanout_witness :
    emit_tcp cid_ex [fd_ex] tcp_ex =
      ([fd_ex].filter (fun fd_data => fd_data.ino = tcp_ex.ino)).map
        (emit_fd cid_ex tcp_ex) ∧
    emit_tcp cid_ex [] tcp_ex = [emit_no_fd cid_ex tcp_ex] ∧
    process_cid cid_ex [tcp_ex] [fd_ex] =
      (([tcp_ex] : List connection_info).filter
          (fun t => tcp_match t cid_ex)).flatMap
        (emit_tcp cid_ex [fd_ex]) ∧
    (emit_fd cid_ex tcp_ex fd_ex).pid = 42 ∧
    (emit_fd cid_ex tcp_ex fd_ex).cmdline = "curl" ∧
    (emit_fd cid_ex tcp_ex fd_ex).uid = 1000 ∧
    (emit_fd cid_ex tcp_ex fd_ex).state = 1 ∧
    (emit_fd cid_ex tcp_ex fd_ex).cid = 5 :=
  ⟨(emit_tcp_fanout cid_ex tcp_ex [fd_ex]).2.1 (by decide),
   (emit_tcp_fanout cid_ex tcp_ex []).1 rfl,
   (emit_tcp_fanout cid_ex tcp_ex [fd_ex]).2.2.2.2 [tcp_ex] (by decide),
   by decide, by decide, by decide, by decide, by decide⟩

/-! ## Helper lemmas for `atoi` and the entry filter -/

theorem digitsVal_le (cs : List Char) : ∀ acc, acc ≤ digitsVal cs acc := by
  induction cs with
  | nil => intro acc; simp [digitsVal]
  | cons c cs ih =>
      intro acc
      by_cases hc : c.isDigit
      · calc acc ≤ acc * 10 + (c.toNat - 48) := by omega
          _ ≤ digitsVal cs (acc * 10 + (c.toNat - 48)) := ih _
          _ = digitsVal (c :: cs) acc := by simp [digitsVal, hc]
      · simp [digitsVal, hc]

theorem digit_not_whitespace (c : Char) (hc : c.isDigit = true) :
    c.isWhitespace = false := by
  cases hw : c.isWhitespace
  · rfl
  · exfalso
    simp [Char.isWhitespace] at hw
    rcases hw with ((rfl | rfl) | rfl) | rfl
    all_goals exact absurd hc (by decide)

theorem digit_ne_dash (c : Char) (hc : c.isDigit = true) : c ≠ '-' := by
  intro he
  rw [he] at hc
  exact absurd hc (by decide)

theorem digit_ne_plus (c : Char) (hc : c.isDigit = true) : c ≠ '+' := by
  intro he
  rw [he] at hc
  exact absurd hc (by decide)

theorem digit_toNat_bounds (c : Char) (hc : c.isDigit = true) :
    48 ≤ c.toNat ∧ c.toNat ≤ 57 := by
  simp [Char.isDigit] at hc
  obtain ⟨h1, h2⟩ := hc
  constructor
  · exact UInt32.le_toNat_of_le (by decide) h1
  · exact UInt32.toNat_le_of_le (by decide) h2

/-- `atoi` on a string whose first character is a digit is the value of
its leading digit run. -/
theorem atoi_digit_head (s : String) (c : Char) (rest : List Char)
    (hs : s.data = c :: rest) (hc : c.isDigit = true) :
    atoi s = (digitsVal (c :: rest) 0 : Int) := by
  unfold atoi
  rw [hs, List.dropWhile_cons, digit_not_whitespace c hc]
  simp only [Bool.false_eq_true, if_false]
  rw [if_neg (digit_ne_dash c hc), if_neg (digit_ne_plus c hc)]

/-- The leading digit run of a string starting with a nonzero digit has a
positive value. -/
theorem digitsVal_pos (c : Char) (cs : List Char) (hc : c.isDigit = true)
    (h0 : c ≠ '0') : 1 ≤ digitsVal (c :: cs) 0 := by
  have hb := digit_toNat_bounds c hc
  have hne : c.toNat ≠ 48 := by
    intro he
    apply h0
    have hon := Char.ofNat_toNat c
    rw [he] at hon
    rw [← hon]
  have h1 : 1 ≤ 0 * 10 + (c.toNat - 48) := by omega
  calc (1 : Nat) ≤ 0 * 10 + (c.toNat - 48) := h1
    _ ≤ digitsVal cs (0 * 10 + (c.toNat - 48)) := digitsVal_le cs _
    _ = digitsVal (c :: cs) 0 := by simp [digitsVal, hc]

/-! ## C6: entry filter of the connection catalog -/

/-- C6 counterexample: the directory entry named "123abc" does not parse
as an integer, yet the catalog does not ignore it: `atoi` yields the
prefix 123, the filter accepts the entry, and its spec record is read,
producing a connection with cid 123. -/
theorem refresh_nonint_name_counterexample :
    name_is_integer "123abc" = false ∧
    accept_name "123abc" = true ∧
    refresh_loop ⟨0, WEB100_AGENT_TYPE_LOCAL⟩
        (fun _ => some (List.replicate 12 0)) ["123abc"] [] =
      (.ok (), [⟨⟨0, WEB100_AGENT_TYPE_LOCAL⟩, 123, ⟨0, 0, 0, 0⟩⟩]) := by
  refine ⟨by decide, by decide, by rfl⟩

/-- C6 (amended): the filter of `refresh_connections` accepts an entry iff
`atoi(name)` is nonzero or the name's first character is '0'.
Consequently every entry whose name begins with a decimal digit — in
particular every name that parses as a non-negative integer, the literal
"0" included — is read; but an entry with a nonzero integer prefix
followed by other characters (or a negative integer) is also read rather
than ignored. A rejected entry is skipped without error. -/
theorem refresh_filter_semantics (s : String) :
    (accept_name s = false ↔ (atoi s = 0 ∧ s.data.head? ≠ some '0')) ∧
    (∀ c rest, s.data = c :: rest → c.isDigit = true →
      accept_name s = true) ∧
    (∀ (agent : AgentRef) (specFile : String → Option (List Nat)),
      accept_name s = false →
      refresh_loop agent specFile [s] [] = (.ok (), [])) := by
  refine ⟨?_, ?_, ?_⟩
  · simp [accept_name]
  · intro c rest hs hc
    by_cases h0 : c = '0'
    · subst h0
      simp [accept_name, hs]
    · have hv := atoi_digit_head s c rest hs hc
      have hpos := digitsVal_pos c rest hc h0
      have hne : atoi s ≠ 0 := by
        rw [hv]
        intro he
        have : digitsVal (c :: rest) 0 = 0 := by exact_mod_cast he
        omega
      simp [accept_name, hne]
  · intro agent specFile hb
    simp [refresh_loop, hb]

/-- Witness for the amended C6: "0" is accepted; "abc" is rejected and
skipped without error. -/
theorem refresh_filter_semantics_witness :
    accept_name "0" = true ∧
    refresh_loop ⟨0, WEB100_AGENT_TYPE_LOCAL⟩ (fun _ => none) ["abc"] [] =
      (.ok (), []) :=
  ⟨(refresh_filter_semantics "0").2.1 '0' [] rfl (by decide),
   (refresh_filter_semantics "abc").2.2 ⟨0, WEB100_AGENT_TYPE_LOCAL⟩
     (fun _ => none) (by decide)⟩

/-! ## C7: short spec read aborts the catalog rebuild -/

/-- C7: when some accepted entry's spec record cannot be fully read (file
unopenable, or shorter than the 12-byte record), the whole catalog refresh
aborts with the fatal `WEB100_ERR_SYS`, and `web100_connection_head`
returns NULL to its caller: neither the discarded previous list nor the
half-built partial list is returned. -/
theorem refresh_short_spec_fatal (agent : AgentRef)
    (specFile : String → Option (List Nat)) (entries : List String)
    (prev : List web100_connection)
    (h : ∃ name ∈ entries, accept_name name = true ∧
      spec_unreadable specFile name = true) :
    (refresh_loop agent specFile entries []).1 = .error WEB100_ERR_SYS ∧
    (web100_connection_head agent specFile entries prev).1 = none := by
  have main : ∀ (es : List String) (acc : List web100_connection),
      (∃ name ∈ es, accept_name name = true ∧
        spec_unreadable specFile name = true) →
      (refresh_loop agent specFile es acc).1 = .error WEB100_ERR_SYS := by
    intro es
    induction es with
    | nil =>
        intro acc h2
        simp at h2
    | cons e rest ih =>
        intro acc h2
        by_cases hacc : accept_name e = true
        · cases hsf : specFile e with
          | none => simp [refresh_loop, hacc, hsf]
          | some bytes =>
              by_cases hlen : bytes.length < 12
              · simp [refresh_loop, hacc, hsf, read_spec, hlen]
              · obtain ⟨name, hmem, hn1, hn2⟩ := h2
                rcases List.mem_cons.mp hmem with rfl | hmem2
                · exfalso
                  simp [spec_unreadable, hsf] at hn2
                  omega
                · have hrec := ih (⟨agent, atoi e,
                    ⟨decodeLE (bytes.take 2), decodeLE ((bytes.drop 2).take 4),
                     decodeLE ((bytes.drop 6).take 2),
                     decodeLE ((bytes.drop 8).take 4)⟩⟩ :: acc)
                    ⟨name, hmem2, hn1, hn2⟩
                  simpa [refresh_loop, hacc, hsf, read_spec, hlen] using hrec
        · obtain ⟨name, hmem, hn1, hn2⟩ := h2
          rcases List.mem_cons.mp hmem with rfl | hmem2
          · exact absurd hn1 hacc
          · have hrec := ih acc ⟨name, hmem2, hn1, hn2⟩
            simp only [Bool.not_eq_true] at hacc
            simpa [refresh_loop, hacc] using hrec
  refine ⟨main entries [] h, ?_⟩
  simp [web100_connection_head, main entries [] h]

/-- Witness for C7: one accepted entry "5" whose spec file holds only 3 of
the 12 required bytes. -/
theorem refresh_short_spec_fatal_witness :
    (refresh_loop ⟨0, WEB100_AGENT_TYPE_LOCAL⟩ (fun _ => some [0, 0, 0])
      ["5"] []).1 = .error WEB100_ERR_SYS ∧
    (web100_connection_head ⟨0, WEB100_AGENT_TYPE_LOCAL⟩
      (fun _ => some [0, 0, 0]) ["5"] []).1 = none :=
  refresh_short_spec_fatal ⟨0, WEB100_AGENT_TYPE_LOCAL⟩
    (fun _ => some [0, 0, 0]) ["5"] []
    ⟨"5", by decide, by decide, by decide⟩

/-! ## C8: lookup semantics -/

/-- C8 counterexample: on a local agent holding one group "read" (itself
holding no variable named "bogus"), `web100_group_find` and
`web100_var_find` applied to the absent name "bogus" return NULL with
`web100_errno` left at `WEB100_ERR_SUCCESS` — a silent null, not a named
error (in particular not `WEB100_ERR_NOVAR`). -/
theorem find_silent_null_counterexample :
    web100_group_find
        ⟨0, WEB100_AGENT_TYPE_LOCAL, "1.0",
          [⟨⟨0, WEB100_AGENT_TYPE_LOCAL⟩, "read", 0, 0, []⟩]⟩ "bogus" =
      (none, WEB100_ERR_SUCCESS) ∧
    web100_var_find ⟨⟨0, WEB100_AGENT_TYPE_LOCAL⟩, "read", 0, 0, []⟩
        "bogus" =
      (none, WEB100_ERR_SUCCESS) ∧
    WEB100_ERR_SUCCESS ≠ WEB100_ERR_NOVAR := by
  refine ⟨by decide, by decide, by decide⟩

/-- C8 (amended): `web100_group_find` and `web100_var_find` scan linearly
with exact, case-sensitive name comparison — a returned entity bears
exactly the requested name and belongs to the scanned list — but when no
entity of that name exists they return NULL with the error state set to
the success code (a silent null), not a named error. -/
theorem web100_find_scan (agent : web100_agent) (group : web100_group)
    (name : String) (ha : agent.type = WEB100_AGENT_TYPE_LOCAL)
    (hg : group.agent.type = WEB100_AGENT_TYPE_LOCAL) :
    (∀ gp, (web100_group_find agent name).1 = some gp →
      gp.name = name ∧ gp ∈ agent.groups) ∧
    ((∀ gp ∈ agent.groups, gp.name ≠ name) →
      web100_group_find agent name = (none, WEB100_ERR_SUCCESS)) ∧
    (∀ vp, (web100_var_find group name).1 = some vp →
      vp.name = name ∧ vp ∈ group.vars) ∧
    ((∀ vp ∈ group.vars, vp.name ≠ name) →
      web100_var_find group name = (none, WEB100_ERR_SUCCESS)) := by
  have e1 : web100_group_find agent name =
      (agent.groups.find? (fun gp => gp.name = name), WEB100_ERR_SUCCESS) := by
    simp [web100_group_find, ha]
  have e2 : web100_var_find group name =
      (group.vars.find? (fun vp => vp.name = name), WEB100_ERR_SUCCESS) := by
    simp [web100_var_find, hg]
  refine ⟨?_, ?_, ?_, ?_⟩
  · intro gp hgp
    rw [e1] at hgp
    simp only at hgp
    exact ⟨by simpa using List.find?_some hgp,
      List.mem_of_find?_eq_some hgp⟩
  · intro hnone
    rw [e1, Prod.mk.injEq]
    refine ⟨?_, rfl⟩
    rw [List.find?_eq_none]
    intro a hmem
    simpa using hnone a hmem
  · intro vp hvp
    rw [e2] at hvp
    simp only at hvp
    exact ⟨by simpa using List.find?_some hvp,
      List.mem_of_find?_eq_some hvp⟩
  · intro hnone
    rw [e2, Prod.mk.injEq]
    refine ⟨?_, rfl⟩
    rw [List.find?_eq_none]
    intro a hmem
    simpa using hnone a hmem

/-- Witness for the amended C8 at a concrete local agent and group. -/
theorem web100_find_scan_witness :
    (∀ gp, (web100_group_find
        ⟨0, WEB100_AGENT_TYPE_LOCAL, "1.0",
          [⟨⟨0, WEB100_AGENT_TYPE_LOCAL⟩, "read", 0, 0, []⟩]⟩ "read").1 =
          some gp →
      gp.name = "read" ∧
      gp ∈ (⟨0, WEB100_AGENT_TYPE_LOCAL, "1.0",
        [⟨⟨0, WEB100_AGENT_TYPE_LOCAL⟩, "read", 0, 0, []⟩]⟩ :
          web100_agent).groups) ∧
    ((∀ gp ∈ (⟨0, WEB100_AGENT_TYPE_LOCAL, "1.0",
        [⟨⟨0, WEB100_AGENT_TYPE_LOCAL⟩, "read", 0, 0, []⟩]⟩ :
          web100_agent).groups, gp.name ≠ "read") →
      web100_group_find
        ⟨0, WEB100_AGENT_TYPE_LOCAL, "1.0",
          [⟨⟨0, WEB100_AGENT_TYPE_LOCAL⟩, "read", 0, 0, []⟩]⟩ "read" =
        (none, WEB100_ERR_SUCCESS)) ∧
    (∀ vp, (web100_var_find
        ⟨⟨0, WEB100_AGENT_TYPE_LOCAL⟩, "read", 0, 0, []⟩ "read").1 =
          some vp →
      vp.name = "read" ∧
      vp ∈ (⟨⟨0, WEB100_AGENT_TYPE_LOCAL⟩, "read", 0, 0, []⟩ :
        web100_group).vars) ∧
    ((∀ vp ∈ (⟨⟨0, WEB100_AGENT_TYPE_LOCAL⟩, "read", 0, 0, []⟩ :
        web100_group).vars, vp.name ≠ "read") →
      web100_var_find ⟨⟨0, WEB100_AGENT_TYPE_LOCAL⟩, "read", 0, 0, []⟩
          "read" =
        (none, WEB100_ERR_SUCCESS)) :=
  web100_find_scan
    ⟨0, WEB100_AGENT_TYPE_LOCAL, "1.0",
      [⟨⟨0, WEB100_AGENT_TYPE_LOCAL⟩, "read", 0, 0, []⟩]⟩
    ⟨⟨0, WEB100_AGENT_TYPE_LOCAL⟩, "read", 0, 0, []⟩ "read" rfl rfl

/-! ## C9: raw access with mismatched agents -/

/-- C9: when the variable's group and the connection belong to different
agents, `web100_raw_read` and `web100_raw_write` fail with
`WEB100_ERR_INVAL` and perform no I/O: no path is opened, and the write
leaves the file system exactly as it was (a failed read likewise returns
no bytes, so the caller's buffer is untouched). -/
theorem raw_access_mismatch_no_io (var : web100_var)
    (conn : web100_connection) (buf : List Nat)
    (fs : String → Option (List Nat))
    (h : var.group.agent ≠ conn.agent) :
    web100_raw_read var conn fs = (.error WEB100_ERR_INVAL, []) ∧
    web100_raw_write var conn buf fs = (.error WEB100_ERR_INVAL, [], fs) := by
  constructor
  · simp [web100_raw_read, h]
  · simp [web100_raw_write, h]

/-- Witness for C9: a variable owned by agent 0 against a connection owned
by agent 1. -/
theorem raw_access_mismatch_no_io_witness :
    web100_raw_read
        ⟨⟨⟨0, WEB100_AGENT_TYPE_LOCAL⟩, "read"⟩, "X", 0, .UNSIGNED16⟩
        ⟨⟨1, WEB100_AGENT_TYPE_LOCAL⟩, 7, ⟨0, 0, 0, 0⟩⟩
        (fun _ => none) =
      (.error WEB100_ERR_INVAL, []) ∧
    web100_raw_write
        ⟨⟨⟨0, WEB100_AGENT_TYPE_LOCAL⟩, "X2"⟩, "X", 0, .UNSIGNED16⟩
        ⟨⟨1, WEB100_AGENT_TYPE_LOCAL⟩, 7, ⟨0, 0, 0, 0⟩⟩ [1, 2]
        (fun _ => none) =
      (.error WEB100_ERR_INVAL, [], fun _ => none) :=
  ⟨(raw_access_mismatch_no_io
      ⟨⟨⟨0, WEB100_AGENT_TYPE_LOCAL⟩, "read"⟩, "X", 0, .UNSIGNED16⟩
      ⟨⟨1, WEB100_AGENT_TYPE_LOCAL⟩, 7, ⟨0, 0, 0, 0⟩⟩ [1, 2]
      (fun _ => none) (by decide)).1,
   (raw_access_mismatch_no_io
      ⟨⟨⟨0, WEB100_AGENT_TYPE_LOCAL⟩, "X2"⟩, "X", 0, .UNSIGNED16⟩
      ⟨⟨1, WEB100_AGENT_TYPE_LOCAL⟩, 7, ⟨0, 0, 0, 0⟩⟩ [1, 2]
      (fun _ => none) (by decide)).2⟩

/-- C10: `web100_strerror` is total over `Int`: an error number inside
`[0, web100_sys_nerr)` yields that error's entry of `web100_sys_errlist`,
and any number outside that range (negative or too large) yields the string
"unknown error". -/
theorem web100_strerror_total (n : Int) :
    (0 ≤ n ∧ n < web100_sys_nerr →
      web100_strerror n = web100_sys_errlist.getD n.toNat "unknown error") ∧
    (n < 0 ∨ web100_sys_nerr ≤ n → web100_strerror n = "unknown error") := by
  constructor
  · intro h
    unfold web100_strerror
    rw [if_neg]
    push_neg
    exact ⟨h.1, h.2⟩
  · intro h
    unfold web100_strerror
    rw [if_pos]
    rcases h with h | h
    · exact Or.inl h
    · exact Or.inr h

/-- Witness for C10 at concrete inputs: error 1 maps to "system error",
and -1 and 99 are out of range and map to "unknown error". -/
theorem web100_strerror_total_witness :
    web100_strerror 1 = "system error" ∧
    web100_strerror (-1) = "unknown error" ∧
    web100_strerror 99 = "unknown error" := by
  refine ⟨?_, ?_, ?_⟩
  · have h := (web100_strerror_total 1).1 (by decide)
    simpa [web100_sys_errlist] using h
  · exact (web100_strerror_total (-1)).2 (by decide)
  · exact (web100_strerror_total 99).2 (by decide)

end Web100
